import Mathlib

/-
Verification of the access gateway of feather_code.py (a GitHub MCP server)
against its natural-language specification.  Python strings are embedded as
`List Char` (Python string indexing/slicing is by code point), JSON values as
the inductive `JVal`, Python dicts as association lists in insertion order,
and Python exceptions as `Except` errors.  Stateful token acquisition is
embedded as explicit state passing with an oracle abstracting the network.
-/

namespace FeatherCode

/-! ## Python string primitives (embedded over `List Char`)

`py_contains pat s` embeds Python `pat in s` (substring containment),
`py_split sep s` embeds `s.split(sep)` for a single-character separator,
`py_replace pat rep s` embeds `s.replace(pat, rep)` for a nonempty `pat`
(left-to-right scan, each match replaced, scan resumes after the match;
the empty-pattern case of Python is never used by the source and is not
modelled). -/

/-- Embeds Python `pat in s`: substring containment. -/
def py_contains (pat : List Char) : List Char → Bool
  | [] => pat.isEmpty
  | c :: cs => pat.isPrefixOf (c :: cs) || py_contains pat cs

/-- Embeds Python `s.split(sep)` for a one-character separator. -/
def py_split (sep : Char) : List Char → List (List Char)
  | [] => [[]]
  | c :: cs =>
    if c = sep then [] :: py_split sep cs
    else
      match py_split sep cs with
      | [] => [[c]]
      | h :: t => (c :: h) :: t

/-- Worker for `py_replace`: `skip` counts characters still belonging to the
most recent match (they are dropped, having been replaced). -/
def py_replace_aux (pat rep : List Char) : List Char → Nat → List Char
  | [], _ => []
  | _ :: cs, skip + 1 => py_replace_aux pat rep cs skip
  | c :: cs, 0 =>
    if pat.isPrefixOf (c :: cs) && !pat.isEmpty then
      rep ++ py_replace_aux pat rep cs (pat.length - 1)
    else
      c :: py_replace_aux pat rep cs 0

/-- Embeds Python `s.replace(pat, rep)` for nonempty `pat`. -/
def py_replace (pat rep s : List Char) : List Char := py_replace_aux pat rep s 0

/-! ## Repository URL parsing (`GitHubClient._detect_git_repo`, lines 86-100)

The subprocess call fetching the `origin` remote URL is outside the parser;
`detect_git_repo_parse` embeds exactly the URL-parsing portion: the body of
the `if 'github.com' in url:` block plus the final `return None`. -/

/-- The literal `'github.com'`. -/
def ghcom_lit : List Char := ['g', 'i', 't', 'h', 'u', 'b', '.', 'c', 'o', 'm']

/-- The literal `'https://'`. -/
def https_start : List Char := ['h', 't', 't', 'p', 's', ':', '/', '/']

/-- The literal `'https://github.com/'`. -/
def https_full : List Char :=
  ['h', 't', 't', 'p', 's', ':', '/', '/', 'g', 'i', 't', 'h', 'u', 'b', '.', 'c', 'o', 'm', '/']

/-- The literal `'git@'`. -/
def ssh_start : List Char := ['g', 'i', 't', '@']

/-- The literal `'git@github.com:'`. -/
def ssh_full : List Char :=
  ['g', 'i', 't', '@', 'g', 'i', 't', 'h', 'u', 'b', '.', 'c', 'o', 'm', ':']

/-- The literal `'git://'`. -/
def gitp_start : List Char := ['g', 'i', 't', ':', '/', '/']

/-- The literal `'git://github.com/'`. -/
def gitp_full : List Char :=
  ['g', 'i', 't', ':', '/', '/', 'g', 'i', 't', 'h', 'u', 'b', '.', 'c', 'o', 'm', '/']

/-- The literal `'.git'`. -/
def dotgit_lit : List Char := ['.', 'g', 'i', 't']

/-- Embeds the URL-parsing logic of `GitHubClient._detect_git_repo`
(feather_code.py lines 86-100): substring test for `github.com`, three
`startswith` branches each doing `replace(...).replace('.git','').split('/')`,
then `return (parts[0], parts[1])` when `len(parts) >= 2`. -/
def detect_git_repo_parse (url : List Char) : Option (List Char × List Char) :=
  if py_contains ghcom_lit url then
    let partsOpt : Option (List (List Char)) :=
      if https_start.isPrefixOf url then
        some (py_split '/' (py_replace dotgit_lit [] (py_replace https_full [] url)))
      else if ssh_start.isPrefixOf url then
        some (py_split '/' (py_replace dotgit_lit [] (py_replace ssh_full [] url)))
      else if gitp_start.isPrefixOf url then
        some (py_split '/' (py_replace dotgit_lit [] (py_replace gitp_full [] url)))
      else none
    match partsOpt with
    | none => none
    | some parts =>
      match parts with
      | p0 :: p1 :: _ => some (p0, p1)
      | _ => none
  else none

/-! ## JSON values and Python dict primitives

`JVal` embeds the JSON values handled by the server (numbers as `Int`:
the GitHub fields used by the source are integers).  A parsed JSON object
is an association list in insertion order with unique keys, as produced by
`json.loads`. -/

/-- A JSON value.  Objects are association lists in insertion order. -/
inductive JVal where
  | null : JVal
  | bool (b : Bool) : JVal
  | num (n : Int) : JVal
  | str (s : String) : JVal
  | arr (xs : List JVal) : JVal
  | obj (fs : List (String × JVal)) : JVal

/-- First-match lookup in an association list (parsed dicts have unique
keys, so this embeds Python `d[k]` key lookup). -/
def lookupKV (fs : List (String × JVal)) (k : String) : Option JVal :=
  match fs with
  | [] => none
  | (k2, v) :: rest => if k2 = k then some v else lookupKV rest k

/-- A Python exception, as visible to `handle_call_tool`'s except clauses:
either a `requests.exceptions.HTTPError` (with `str(e)` and, when a response
is attached, its body: `none` = body not parseable by `.json()`), or any
other exception carrying `str(e)`. -/
inductive PyErr where
  | httpError (strE : String) (respBody : Option (Option JVal)) : PyErr
  | exn (msg : String) : PyErr

/-- Embeds Python subscripting `v[k]` for a string key: lookup in a dict,
`KeyError` (whose `str` is the quoted key) when the key is missing,
`TypeError` when the value is not a dict. -/
def j_index (v : JVal) (k : String) : Except PyErr JVal :=
  match v with
  | .obj fs =>
    match lookupKV fs k with
    | some x => .ok x
    | none => .error (.exn ("\x27" ++ k ++ "\x27"))
  | _ => .error (.exn "value is not subscriptable")

/-- Embeds `d[k]` directly on an association list. -/
def d_index (fs : List (String × JVal)) (k : String) : Except PyErr JVal :=
  match lookupKV fs k with
  | some x => .ok x
  | none => .error (.exn ("\x27" ++ k ++ "\x27"))

/-- Python truthiness of a JSON value (`None`, `False`, `0`, `''`, `[]` and
empty dicts are falsy). -/
def py_truthy : JVal → Bool
  | .null => false
  | .bool b => b
  | .num n => n != 0
  | .str s => s.length != 0
  | .arr xs => !xs.isEmpty
  | .obj fs => !fs.isEmpty

/-- Embeds Python `len(v)`: defined for strings (code points), lists and
dicts; `TypeError` otherwise. -/
def py_len : JVal → Except PyErr Nat
  | .str s => .ok s.length
  | .arr xs => .ok xs.length
  | .obj fs => .ok fs.length
  | _ => .error (.exn "object has no length")

/-- Embeds Python slicing `s[:n]` on a string: the first `n` code points. -/
def py_slice (s : String) (n : Nat) : String := String.mk (s.data.take n)

/-- Embeds Python `str(v)`/f-string interpolation of a JSON value.  For the
container cases Python would print a `repr`-style rendering whose exact
text (quoting and spacing) is interpreter-defined; the placeholder here is
never reached by any claim. -/
def py_str : JVal → String
  | .str s => s
  | .num n => toString n
  | .bool b => if b then "True" else "False"
  | .null => "None"
  | .arr _ => "[...]"
  | .obj _ => "\x7b...\x7d"

/-- Python truthiness of an `Optional[str]` configuration value (`None` and
`''` are falsy). -/
def opt_truthy : Option String → Bool
  | none => false
  | some s => s.length != 0

/-- Coerces an `Optional[str]` Python value to a JSON value (used when a
configuration default flows into `arguments.get(...)`). -/
def opt_str : Option String → JVal
  | none => .null
  | some s => .str s

/-! ## Credential resolver (`GitHubClient._get_headers` / `_get_app_token`,
lines 110-157)

The fields of `GitHubCfg` are the attributes `GitHubClient.__init__` reads
from the environment.  `_get_app_token` reads the signing key, builds an
RS256 assertion and POSTs it to the installation-token endpoint; the whole
attempt is abstracted by an oracle mapping the attempt index (the number of
prior attempts in the process) to its outcome: `.ok token` for an HTTP 201
exchange, `.fail msg` for a key-read/signing error or a non-201 status
(which the source raises as `Exception`).  The source keeps no token state
whatsoever, so the only process state is the attempt counter. -/

/-- The environment-derived configuration held by `GitHubClient`. -/
structure GitHubCfg where
  repo_owner : Option String
  repo_name : Option String
  pat : Option String
  app_id : Option String
  installation_id : Option String
  private_key_path : Option String
  api_base : String

/-- Process-wide mutable state relevant to authentication: how many times
`_get_app_token` has been invoked (each invocation performs a fresh key
read, JWT build and token exchange; the source caches nothing). -/
structure TokenState where
  attempts : Nat

/-- Outcome of one `_get_app_token` attempt. -/
inductive ExchangeResult where
  | ok (token : String) : ExchangeResult
  | fail (msg : String) : ExchangeResult

/-- Embeds `GitHubClient._get_app_token` (lines 128-157): every call
performs a fresh acquisition attempt, whose outcome the oracle gives as a
function of the attempt index; the attempt counter always advances. -/
def get_app_token (oracle : Nat → ExchangeResult) (st : TokenState) :
    Except String String × TokenState :=
  match oracle st.attempts with
  | .ok t => (.ok t, ⟨st.attempts + 1⟩)
  | .fail m => (.error m, ⟨st.attempts + 1⟩)

/-- The fixed headers of `_get_headers` (lines 112-115). -/
def base_headers : List (String × String) :=
  [("Accept", "application/vnd.github.v3+json"),
   ("User-Agent", "feather-code-mcp/1.0.0")]

/-- Embeds `GitHubClient._get_headers` (lines 110-126): a PAT is used
directly; otherwise, when the App triple is fully set, `_get_app_token` is
called (its failure is caught and degrades to no Authorization header). -/
def get_headers (cfg : GitHubCfg) (oracle : Nat → ExchangeResult)
    (st : TokenState) : List (String × String) × TokenState :=
  if opt_truthy cfg.pat then
    (base_headers ++ [("Authorization", "token " ++ cfg.pat.getD "")], st)
  else if opt_truthy cfg.app_id && opt_truthy cfg.installation_id
      && opt_truthy cfg.private_key_path then
    match get_app_token oracle st with
    | (.ok t, st2) => (base_headers ++ [("Authorization", "token " ++ t)], st2)
    | (.error _, st2) => (base_headers, st2)
  else
    (base_headers, st)

/-! ## Request dispatcher (`GitHubClient.request`, lines 159-177)

The dispatcher builds one outbound HTTP request.  `ReqKwargs` models the
`**kwargs` bag its callers pass (`params=`, `json=`, `headers=`,
`timeout=`).  The model stops at the fully built outbound request (the
response and transport errors belong to the oracle-abstracted network):
`SentRequest` records exactly what would be handed to `requests.request`.
Python keyword binding makes the source line
`requests.request(method=method, url=url, headers=self._get_headers(),
**kwargs)` raise `TypeError` whenever `kwargs` itself contains `headers` —
after having evaluated `self._get_headers()`. -/

/-- The keyword arguments callers of `GitHubClient.request` use. -/
structure ReqKwargs where
  timeout : Option Nat
  queryParams : Option (List (String × JVal))
  jsonBody : Option (List (String × JVal))
  headers : Option (List (String × String))

/-- An outbound HTTP request as handed to the `requests` library. -/
structure SentRequest where
  method : String
  url : String
  headers : List (String × String)
  queryParams : Option (List (String × JVal))
  jsonBody : Option (List (String × JVal))
  timeout : Nat

/-- Embeds `GitHubClient.request` (lines 159-177) up to the point where the
outbound request is handed to the network.  Note the duplicate-keyword
`TypeError`: it is raised during argument binding, after `_get_headers()`
(and hence any token-exchange side effect) has been evaluated. -/
def github_request (cfg : GitHubCfg) (oracle : Nat → ExchangeResult)
    (st : TokenState) (method endpoint : String) (kw : ReqKwargs) :
    Except PyErr SentRequest × TokenState :=
  let url := cfg.api_base ++ endpoint
  let timeout := kw.timeout.getD 30
  let (hdrs, st2) := get_headers cfg oracle st
  match kw.headers with
  | some _ =>
    (.error (.exn "request() got multiple values for keyword argument \x27headers\x27"), st2)
  | none =>
    (.ok { method := method, url := url, headers := hdrs,
           queryParams := kw.queryParams, jsonBody := kw.jsonBody,
           timeout := timeout }, st2)

/-- Embeds Python `\x7b**a, k: v\x7d` merging for one override key: an existing
key is overwritten in place, a new key is appended. -/
def dict_set (m : List (String × String)) (k v : String) : List (String × String) :=
  if m.any (fun p => p.1 = k) then
    m.map (fun p => if p.1 = k then (k, v) else p)
  else
    m ++ [(k, v)]

/-- Embeds the outbound call of `get_repository_topics` (lines 1109-1112):
the caller merges the resolver's headers with a topics-preview `Accept`
override (override wins) and passes the merged dict as the `headers=`
keyword argument of `GitHubClient.request`.  Argument evaluation runs
`_get_headers()` once for the merge, then `request` runs it again before
the keyword binding fails. -/
def get_repository_topics_request (cfg : GitHubCfg) (oracle : Nat → ExchangeResult)
    (st : TokenState) (owner repo : String) :
    Except PyErr SentRequest × TokenState :=
  let (h0, st0) := get_headers cfg oracle st
  let merged := dict_set h0 "Accept" "application/vnd.github.mercy-preview+json"
  github_request cfg oracle st0 "GET" ("/repos/" ++ owner ++ "/" ++ repo ++ "/topics")
    { timeout := none, queryParams := none, jsonBody := none, headers := some merged }

/-! ## Upstream responses and per-resource handlers

`HttpResp` is a received upstream response: a status code and the result of
`.json()` on its body (`none` when the body is not valid JSON, in which
case `.json()` raises).  Handlers are embedded as the pure projection they
perform on a response; the dispatcher call that produced the response is
abstracted by passing the response in. -/

/-- An upstream HTTP response, post-transport. -/
structure HttpResp where
  status : Nat
  body : Option JVal

/-- Embeds `response.json()`. -/
def resp_json (r : HttpResp) : Except PyErr JVal :=
  match r.body with
  | some v => .ok v
  | none => .error (.exn "Expecting value: line 1 column 1 (char 0)")

/-- Approximates `str(e)` of the `requests.exceptions.HTTPError` raised by
`response.raise_for_status()`; its exact text is library-defined and no
claim depends on it. -/
def http_err_str (status : Nat) : String := toString status ++ " Error"

/-- Embeds `response.raise_for_status()`: `requests` raises `HTTPError`
(with the response attached) exactly for status codes 400-599. -/
def raise_for_status (r : HttpResp) : Except PyErr Unit :=
  if 400 ≤ r.status ∧ r.status ≤ 599 then
    .error (.httpError (http_err_str r.status) (some r.body))
  else
    .ok ()

/-- Embeds the `body` entry of the issue/PR projections (the identical
expression at lines 703 and 774):
`(x["body"][:200] + "...") if x.get("body") and len(x["body"]) > 200
else x.get("body", "")`. -/
def issue_body_field (fs : List (String × JVal)) : Except PyErr JVal :=
  match lookupKV fs "body" with
  | none => .ok (.str "")
  | some v =>
    if py_truthy v then do
      let n ← py_len v
      if 200 < n then
        match v with
        | .str s => .ok (.str (py_slice s 200 ++ "..."))
        | _ => .error (.exn "can only concatenate str")
      else
        .ok v
    else
      .ok v

/-- Embeds `[label["name"] for label in v]` (line 699): `v` must be the
JSON array the issues endpoint returns for `labels`; iterating any other
value either fails or is out of the API contract, both embedded as an
error. -/
def label_names (v : JVal) : Except PyErr (List JVal) :=
  match v with
  | .arr xs => xs.mapM (fun l => j_index l "name")
  | _ => .error (.exn "labels value is not iterable")

/-- Embeds the per-issue projection of `list_issues` (lines 693-704), the
dict literal appended for each non-pull-request item, with the source's
left-to-right evaluation order. -/
def project_issue (fs : List (String × JVal)) : Except PyErr JVal := do
  let number ← d_index fs "number"
  let title ← d_index fs "title"
  let state ← d_index fs "state"
  let html_url ← d_index fs "html_url"
  let userv ← d_index fs "user"
  let login ← j_index userv "login"
  let labelsv ← d_index fs "labels"
  let names ← label_names labelsv
  let created_at ← d_index fs "created_at"
  let updated_at ← d_index fs "updated_at"
  let comments ← d_index fs "comments"
  let body ← issue_body_field fs
  .ok (.obj [("number", number), ("title", title), ("state", state),
             ("html_url", html_url), ("user", login), ("labels", .arr names),
             ("created_at", created_at), ("updated_at", updated_at),
             ("comments", comments), ("body", body)])

/-- Whether a JSON value is a dict containing key `k` (Python `k in v` for
dict `v`; the issues endpoint returns a list of dicts). -/
def jval_has_key (v : JVal) (k : String) : Bool :=
  match v with
  | .obj fs => (lookupKV fs k).isSome
  | _ => false

/-- Whether a JSON value is an object. -/
def is_obj : JVal → Bool
  | .obj _ => true
  | _ => false

/-- Projection of one item of the issues listing: items are dicts per the
API contract; a non-dict item cannot be projected. -/
def project_item (v : JVal) : Except PyErr JVal :=
  match v with
  | .obj fs => project_issue fs
  | _ => .error (.exn "issue item is not a dict")

/-- Embeds the result loop of `list_issues` (lines 687-706): items carrying
a `pull_request` key are skipped, every other item is projected, and the
first projection failure aborts the call (the exception propagates). -/
def list_issues_project : List JVal → Except PyErr (List JVal)
  | [] => .ok []
  | item :: rest =>
    if jval_has_key item "pull_request" then
      list_issues_project rest
    else do
      let r ← project_item item
      let rs ← list_issues_project rest
      .ok (r :: rs)

/-- Embeds the `query_params` construction of `list_issues` (lines
671-677): `state` defaulted to `"open"`, `per_page` clamped by
`min(params.get("per_page", 30), 100)`, `labels` added only when truthy.
A non-integer `per_page` would make Python's `min` raise `TypeError`. -/
def list_issues_query (params : List (String × JVal)) :
    Except PyErr (List (String × JVal)) := do
  let pp ← match (lookupKV params "per_page").getD (.num 30) with
           | .num n => .ok (JVal.num (min n 100))
           | _ => .error (.exn "\x27<\x27 not supported between instances")
  let base := [("state", (lookupKV params "state").getD (.str "open")),
               ("per_page", pp)]
  if py_truthy ((lookupKV params "labels").getD .null) then
    .ok (base ++ [("labels", (lookupKV params "labels").getD .null)])
  else
    .ok base

/-- Embeds the per-PR projection of `get_pull_requests` (lines 761-775),
the dict literal of the list comprehension, in source evaluation order. -/
def project_pr (fs : List (String × JVal)) : Except PyErr JVal := do
  let number ← d_index fs "number"
  let title ← d_index fs "title"
  let state ← d_index fs "state"
  let html_url ← d_index fs "html_url"
  let userv ← d_index fs "user"
  let login ← j_index userv "login"
  let created_at ← d_index fs "created_at"
  let updated_at ← d_index fs "updated_at"
  let draft := (lookupKV fs "draft").getD (.bool false)
  let merged := (lookupKV fs "merged").getD (.bool false)
  let merged_at := (lookupKV fs "merged_at").getD .null
  let headv ← d_index fs "head"
  let head_ref ← j_index headv "ref"
  let basev ← d_index fs "base"
  let base_ref ← j_index basev "ref"
  let body ← issue_body_field fs
  .ok (.obj [("number", number), ("title", title), ("state", state),
             ("html_url", html_url), ("user", login),
             ("created_at", created_at), ("updated_at", updated_at),
             ("draft", draft), ("merged", merged), ("merged_at", merged_at),
             ("head", head_ref), ("base", base_ref), ("body", body)])

/-- Embeds the list comprehension of `get_pull_requests` (lines 761-775)
over the parsed response array. -/
def get_pull_requests_project (prs : List JVal) : Except PyErr (List JVal) :=
  prs.mapM (fun v =>
    match v with
    | .obj fs => project_pr fs
    | _ => .error (.exn "pull request item is not a dict"))

/-- Embeds the `content` entry of the file branch of `get_file_content`
(line 1025): `content[:2000] + "..." if len(content) > 2000 else content`,
where `content` is the base64-decoded file text (the decode of lines
1010-1015 is abstracted by taking the decoded string as input). -/
def file_content_field (content : String) : String :=
  if 2000 < content.length then py_slice content 2000 ++ "..." else content

/-- Embeds the file-branch result dict of `get_file_content`
(lines 1017-1026). -/
def get_file_content_file_result (content : String)
    (fd : List (String × JVal)) : Except PyErr JVal := do
  let name ← d_index fd "name"
  let path ← d_index fd "path"
  let size ← d_index fd "size"
  let sha ← d_index fd "sha"
  let html_url ← d_index fd "html_url"
  let download_url := (lookupKV fd "download_url").getD .null
  .ok (.obj [("type", .str "file"), ("name", name), ("path", path),
             ("size", size), ("sha", sha), ("html_url", html_url),
             ("download_url", download_url),
             ("content", .str (file_content_field content))])

/-- Embeds the request-body construction of `create_issue` (lines
714-723): `title` and `body` always present (body defaulting to `""` when
the key is absent), `labels`/`assignees` added only when truthy. -/
def create_issue_data (params : List (String × JVal)) : List (String × JVal) :=
  let base := [("title", (lookupKV params "title").getD .null),
               ("body", (lookupKV params "body").getD (.str ""))]
  let d1 := if py_truthy ((lookupKV params "labels").getD .null) then
              base ++ [("labels", (lookupKV params "labels").getD .null)]
            else base
  if py_truthy ((lookupKV params "assignees").getD .null) then
    d1 ++ [("assignees", (lookupKV params "assignees").getD .null)]
  else d1

/-- Embeds `create_issue` (lines 708-744) as a function of the upstream
response to the POST it issues (whose body is `create_issue_data params`):
missing/falsy title raises `ValueError`; 404 and 422 raise with dedicated
messages; any other non-201 status goes through `raise_for_status` (which
raises only for 400-599, so a non-201 2xx/3xx falls through to the
projection); on the projection path the five fields are read from the body
(a missing key raises `KeyError`) and the confirmation message is added. -/
def create_issue (owner repo : String) (params : List (String × JVal))
    (resp : HttpResp) : Except PyErr JVal :=
  if !py_truthy ((lookupKV params "title").getD .null) then
    .error (.exn "Issue title is required")
  else if resp.status = 404 then
    .error (.exn ("Repository \x27" ++ owner ++ "/" ++ repo ++ "\x27 not found"))
  else if resp.status = 422 then
    match resp.body with
    | none => .error (.exn "Expecting value: line 1 column 1 (char 0)")
    | some (.obj fs) =>
      .error (.exn ("Invalid issue data: " ++
        (match lookupKV fs "message" with
         | some v => py_str v
         | none => "Unknown error")))
    | some _ => .error (.exn "object has no attribute \x27get\x27")
  else do
    if resp.status ≠ 201 then raise_for_status resp else .ok ()
    let issue ← resp_json resp
    let number ← j_index issue "number"
    let title ← j_index issue "title"
    let html_url ← j_index issue "html_url"
    let state ← j_index issue "state"
    let created_at ← j_index issue "created_at"
    .ok (.obj [("number", number), ("title", title), ("html_url", html_url),
               ("state", state), ("created_at", created_at),
               ("message", .str "Issue created successfully")])

/-! ## Capability router (`handle_call_tool`, lines 541-634)

The router is embedded as a total function.  Per-resource handlers are
abstracted by an oracle from (name, resolved owner, resolved repo,
arguments) to the Python outcome of running the handler: a JSON result or
a raised exception (`PyErr` covers both `requests.exceptions.HTTPError`
and every other exception, which is exactly the source's except-clause
split).  `json.dumps` is likewise abstracted as a parameter.  The second
component of the result counts handler dispatches: every upstream network
call of the source happens inside a handler, so a count of zero means no
network request was issued. -/

/-- One element of the MCP result list (the source's
`TextContent | ImageContent | EmbeddedResource` union; the router only
ever builds `text`). -/
inductive Content where
  | text (s : String) : Content
  | image (data : String) : Content
  | embedded (data : String) : Content

/-- The `valid_tools` registry list of `handle_call_tool` (lines 552-557);
it matches the fifteen names declared by `handle_list_tools`. -/
def valid_tools : List String :=
  ["get_repository_info", "list_issues", "create_issue", "get_pull_requests",
   "update_issue", "get_issue", "create_pull_request", "get_pull_request",
   "list_branches", "get_commits", "get_file_content", "search_code",
   "add_issue_comment", "get_repository_languages", "get_repository_topics"]

/-- The unknown-tool error text of lines 559-562. -/
def unknown_tool_text (name : String) : String :=
  "Error: Unknown tool \x27" ++ name ++ "\x27. Available tools: " ++
    String.intercalate ", " valid_tools

/-- The missing-repository error text of lines 570-573. -/
def missing_repo_text : String :=
  "Error: Repository not specified. Set GITHUB_OWNER/GITHUB_REPO environment variables or run from a git repository."

/-- The missing-credential error text of lines 577-580. -/
def no_auth_text : String :=
  "Error: No GitHub authentication configured. Set GITHUB_PAT or configure GitHub App credentials."

/-- Embeds the `except requests.exceptions.HTTPError` clause (lines
620-629): the message is taken from the response body's `message` field
when a response with a JSON-dict body carrying one is attached, and is
`str(e)` otherwise (a failing `.json()` or `.get` is swallowed by the
inner bare except). -/
def http_error_text (strE : String) (respBody : Option (Option JVal)) : String :=
  match respBody with
  | some (some (.obj fs)) =>
    match lookupKV fs "message" with
    | some v => "GitHub API error: " ++ py_str v
    | none => "GitHub API error: " ++ strE
  | _ => "GitHub API error: " ++ strE

/-- Embeds `handle_call_tool` (lines 541-634): name lookup, owner/repo
resolution with per-call override of the process defaults, the
authentication precondition, dispatch, and the translation of every
outcome into a single-element text result.  The `Nat` in the result is the
number of handler dispatches performed. -/
def handle_call_tool (dumps : JVal → String) (cfg : GitHubCfg)
    (handlers : String → JVal → JVal → List (String × JVal) → Except PyErr JVal)
    (name : String) (args : List (String × JVal)) : List Content × Nat :=
  if name ∉ valid_tools then
    ([.text (unknown_tool_text name)], 0)
  else
    let owner := (lookupKV args "owner").getD (opt_str cfg.repo_owner)
    let repo := (lookupKV args "repo").getD (opt_str cfg.repo_name)
    if !py_truthy owner || !py_truthy repo then
      ([.text missing_repo_text], 0)
    else if !opt_truthy cfg.pat
        && !(opt_truthy cfg.app_id && opt_truthy cfg.installation_id
             && opt_truthy cfg.private_key_path) then
      ([.text no_auth_text], 0)
    else
      match handlers name owner repo args with
      | .ok v => ([.text (dumps v)], 1)
      | .error (.httpError strE respBody) =>
        ([.text (http_error_text strE respBody)], 1)
      | .error (.exn m) =>
        ([.text ("Error executing tool \x27" ++ name ++ "\x27: " ++ m)], 1)

/-- `handle_call_tool` specialised to the `create_issue` capability with
the embedded `create_issue` handler wired in, the upstream response to its
POST supplied as `resp`. -/
def invoke_create_issue (dumps : JVal → String) (cfg : GitHubCfg)
    (resp : HttpResp) (args : List (String × JVal)) : List Content × Nat :=
  handle_call_tool dumps cfg
    (fun nm ow rp a =>
      if nm = "create_issue" then create_issue (py_str ow) (py_str rp) a resp
      else .error (.exn "capability not modelled"))
    "create_issue" args

/-! ## Concrete example data used by counterexamples and witnesses -/

/-- A configuration with only the App credential triple set (no PAT). -/
def cfg_app_only : GitHubCfg :=
  ⟨some "o", some "r", none, some "1", some "2", some "/k", "https://api.github.com"⟩

/-- An oracle whose every acquisition attempt succeeds with a token naming
the attempt index (a healthy upstream issuing fresh tokens, all far from
expiry). -/
def fresh_token_oracle : Nat → ExchangeResult :=
  fun n => .ok ("tok" ++ toString n)

/-- A 201 creation response whose body has exactly the four fields
`number`, `html_url`, `state`, `created_at` of the claimed scenario. -/
def resp_created_four_fields : HttpResp :=
  ⟨201, some (.obj [("number", .num 7), ("html_url", .str "u"),
                    ("state", .str "open"), ("created_at", .str "t")])⟩

/-- A 201-character body string. -/
def long_body_201 : String := String.mk (List.replicate 201 'a')

/-- A 2001-character decoded file content string. -/
def long_content_2001 : String := String.mk (List.replicate 2001 'b')

/-- A complete issue item with the 201-character body. -/
def sample_issue : List (String × JVal) :=
  [("number", .num 1), ("title", .str "T"), ("state", .str "open"),
   ("html_url", .str "u"), ("user", .obj [("login", .str "me")]),
   ("labels", .arr []), ("created_at", .str "c"), ("updated_at", .str "d"),
   ("comments", .num 0), ("body", .str long_body_201)]

/-- The projection of `sample_issue`. -/
def sample_issue_result : JVal :=
  .obj [("number", .num 1), ("title", .str "T"), ("state", .str "open"),
        ("html_url", .str "u"), ("user", .str "me"), ("labels", .arr []),
        ("created_at", .str "c"), ("updated_at", .str "d"),
        ("comments", .num 0),
        ("body", .str (py_slice long_body_201 200 ++ "..."))]

/-- A complete pull-request item with the 201-character body. -/
def sample_pr : List (String × JVal) :=
  [("number", .num 2), ("title", .str "P"), ("state", .str "open"),
   ("html_url", .str "u"), ("user", .obj [("login", .str "me")]),
   ("created_at", .str "c"), ("updated_at", .str "d"),
   ("head", .obj [("ref", .str "h")]), ("base", .obj [("ref", .str "m")]),
   ("body", .str long_body_201)]

/-- The projection of `sample_pr`. -/
def sample_pr_result : JVal :=
  .obj [("number", .num 2), ("title", .str "P"), ("state", .str "open"),
        ("html_url", .str "u"), ("user", .str "me"), ("created_at", .str "c"),
        ("updated_at", .str "d"), ("draft", .bool false),
        ("merged", .bool false), ("merged_at", .null),
        ("head", .str "h"), ("base", .str "m"),
        ("body", .str (py_slice long_body_201 200 ++ "..."))]

/-- A file metadata dict as returned by the contents endpoint. -/
def sample_file_data : List (String × JVal) :=
  [("name", .str "f"), ("path", .str "p"), ("size", .num 3),
   ("sha", .str "s"), ("html_url", .str "u")]

/-- The file-branch result for `sample_file_data` with the 2001-character
decoded content. -/
def sample_file_result : JVal :=
  .obj [("type", .str "file"), ("name", .str "f"), ("path", .str "p"),
        ("size", .num 3), ("sha", .str "s"), ("html_url", .str "u"),
        ("download_url", .null),
        ("content", .str (py_slice long_content_2001 2000 ++ "..."))]

/-! ## Helper lemmas -/

/-- Unfolding of `Except` bind against a successful result. -/
theorem except_bind_ok_iff {α β : Type} {x : Except PyErr α}
    {f : α → Except PyErr β} {b : β} :
    (x >>= f) = .ok b ↔ ∃ a, x = .ok a ∧ f a = .ok b := by
  cases x with
  | error e => simp [Bind.bind, Except.bind]
  | ok a => simp [Bind.bind, Except.bind]

/-! ## C5: PAT precedence -/

/-- C5: whenever a PersonalAccessToken is set (non-empty), `headers()`
returns the fixed headers plus a PAT-based `Authorization: token <PAT>`
entry, unchanged state — no App token acquisition is attempted — for every
combination of App fields (unset, partially set, or fully set) and every
oracle. -/
theorem headers_pat_takes_precedence (cfg : GitHubCfg)
    (oracle : Nat → ExchangeResult) (st : TokenState) (v : String)
    (hp : cfg.pat = some v) (hv : v ≠ "") :
    get_headers cfg oracle st =
      (base_headers ++ [("Authorization", "token " ++ v)], st) := by
  have hl : v.length ≠ 0 := by
    intro h
    apply hv
    obtain ⟨data⟩ := v
    cases data with
    | nil => rfl
    | cons c cs => simp [String.length] at h
  simp [get_headers, opt_truthy, hp, hl]

/-- Witness for C5: a concrete configuration with a PAT and a partially
set App credential (only the app id). -/
theorem headers_pat_takes_precedence_witness :
    (⟨some "o", some "r", some "p", some "1", none, none, "b"⟩ :
        GitHubCfg).pat = some "p" ∧ ("p" : String) ≠ "" ∧
    get_headers ⟨some "o", some "r", some "p", some "1", none, none, "b"⟩
        fresh_token_oracle ⟨0⟩ =
      (base_headers ++ [("Authorization", "token " ++ "p")], ⟨0⟩) :=
  ⟨rfl, by decide,
   headers_pat_takes_precedence _ fresh_token_oracle ⟨0⟩ "p" rfl (by decide)⟩

/-! ## C6: per_page clamping -/

/-- C6: for every `list_issues` argument bag whose `per_page` exceeds 100,
the query parameters built for the upstream call carry `per_page = 100`:
the value is clamped, not rejected (the construction succeeds) and not
forwarded unchanged (100 differs from the supplied value). -/
theorem list_issues_per_page_clamped (params : List (String × JVal)) (n : Int)
    (hpp : lookupKV params "per_page" = some (.num n)) (hn : 100 < n) :
    ∃ q, list_issues_query params = .ok q ∧
      lookupKV q "per_page" = some (.num 100) ∧ (100 : Int) ≠ n := by
  have hmin : min n 100 = 100 := min_eq_right (le_of_lt hn)
  by_cases hl : py_truthy ((lookupKV params "labels").getD .null) = true
  · refine ⟨[("state", (lookupKV params "state").getD (.str "open")),
             ("per_page", .num 100),
             ("labels", (lookupKV params "labels").getD .null)],
           ?_, by simp [lookupKV], hn.ne⟩
    simp [list_issues_query, hpp, hmin, hl, Bind.bind, Except.bind]
  · rw [Bool.not_eq_true] at hl
    refine ⟨[("state", (lookupKV params "state").getD (.str "open")),
             ("per_page", .num 100)],
           ?_, by simp [lookupKV], hn.ne⟩
    simp [list_issues_query, hpp, hmin, hl, Bind.bind, Except.bind]

/-- Witness for C6 at `per_page = 500`. -/
theorem list_issues_per_page_clamped_witness :
    lookupKV [("per_page", JVal.num 500)] "per_page" = some (.num 500) ∧
    (100 : Int) < 500 ∧
    ∃ q, list_issues_query [("per_page", JVal.num 500)] = .ok q ∧
      lookupKV q "per_page" = some (.num 100) ∧ (100 : Int) ≠ 500 :=
  ⟨rfl, by decide,
   list_issues_per_page_clamped [("per_page", JVal.num 500)] 500 rfl (by decide)⟩

/-! ## C7: unknown capability -/

/-- C7: for every name outside the registered capability list and all
arguments, configurations, handler behaviours and serializers, the router
returns the single unknown-tool error text — which lists every registered
capability name — and performs zero handler dispatches, hence no network
request. -/
theorem unknown_tool_no_dispatch (dumps : JVal → String) (cfg : GitHubCfg)
    (handlers : String → JVal → JVal → List (String × JVal) → Except PyErr JVal)
    (name : String) (args : List (String × JVal))
    (h : name ∉ valid_tools) :
    handle_call_tool dumps cfg handlers name args =
      ([.text (unknown_tool_text name)], 0) := by
  simp [handle_call_tool, h]

/-- Witness for C7 at the concrete unknown name `frobnicate`. -/
theorem unknown_tool_no_dispatch_witness :
    "frobnicate" ∉ valid_tools ∧
    handle_call_tool (fun _ => "") cfg_app_only (fun _ _ _ _ => .error (.exn ""))
        "frobnicate" [] =
      ([.text (unknown_tool_text "frobnicate")], 0) :=
  ⟨by decide,
   unknown_tool_no_dispatch (fun _ => "") cfg_app_only
     (fun _ _ _ _ => .error (.exn "")) "frobnicate" [] (by decide)⟩

/-! ## C8: totality of the invocation path -/

/-- C8: the invocation path is total over failures: for every capability
name, argument bag, configuration, handler outcome (success, raised
HTTPError, any other raised exception — covering domain errors, HTTP-level
errors and transport failures — as well as the pre-dispatch unknown-name,
missing-repository and missing-credential branches) and serializer, the
router returns exactly one text message in the uniform envelope shape, and
never an unhandled exception (the embedded router is a total function into
that shape). -/
theorem call_tool_total_single_text (dumps : JVal → String) (cfg : GitHubCfg)
    (handlers : String → JVal → JVal → List (String × JVal) → Except PyErr JVal)
    (name : String) (args : List (String × JVal)) :
    ∃ s, (handle_call_tool dumps cfg handlers name args).1 = [Content.text s] := by
  unfold handle_call_tool
  dsimp only
  repeat' (first | exact ⟨_, rfl⟩ | split)

/-! ## C1: installation-token lifecycle -/

/-- Counterexample to C1: with only an App credential configured and a
healthy upstream issuing fresh valid tokens (so both calls happen inside
any token's validity window), two sequential `headers()` calls each
perform a token acquisition (the attempt counter reaches 2, where the
claimed caching would leave it at 1 after the second call) and return
different token values (where the claim requires the same value). -/
theorem headers_second_call_new_exchange_cex :
    (get_headers cfg_app_only fresh_token_oracle ⟨0⟩).2.attempts = 1 ∧
    (get_headers cfg_app_only fresh_token_oracle
        (get_headers cfg_app_only fresh_token_oracle ⟨0⟩).2).2.attempts = 2 ∧
    (get_headers cfg_app_only fresh_token_oracle ⟨0⟩).1 ≠
      (get_headers cfg_app_only fresh_token_oracle
        (get_headers cfg_app_only fresh_token_oracle ⟨0⟩).2).1 :=
  ⟨rfl, rfl, by decide⟩

/-- C1 amended: with only an App credential configured, no installation
token is cached at all: every `headers()` call performs exactly one fresh
token acquisition (key read, JWT build, exchange) — the attempt counter
advances by one on every call, regardless of how recent the previous
token is — and the Authorization header is whatever that call's own
acquisition yields (the base headers alone when it fails). -/
theorem headers_app_exchange_every_call (cfg : GitHubCfg)
    (oracle : Nat → ExchangeResult) (st : TokenState)
    (hpat : opt_truthy cfg.pat = false)
    (happ : opt_truthy cfg.app_id = true)
    (hinst : opt_truthy cfg.installation_id = true)
    (hkey : opt_truthy cfg.private_key_path = true) :
    (get_headers cfg oracle st).2.attempts = st.attempts + 1 ∧
    (get_headers cfg oracle st).1 =
      (match oracle st.attempts with
       | .ok t => base_headers ++ [("Authorization", "token " ++ t)]
       | .fail _ => base_headers) := by
  cases h : oracle st.attempts with
  | ok t => simp [get_headers, get_app_token, hpat, happ, hinst, hkey, h]
  | fail m => simp [get_headers, get_app_token, hpat, happ, hinst, hkey, h]

/-- Witness for the amended C1 at the concrete app-only configuration,
starting from five prior attempts. -/
theorem headers_app_exchange_every_call_witness :
    opt_truthy cfg_app_only.pat = false ∧
    opt_truthy cfg_app_only.app_id = true ∧
    opt_truthy cfg_app_only.installation_id = true ∧
    opt_truthy cfg_app_only.private_key_path = true ∧
    ((get_headers cfg_app_only fresh_token_oracle ⟨5⟩).2.attempts
        = (⟨5⟩ : TokenState).attempts + 1 ∧
     (get_headers cfg_app_only fresh_token_oracle ⟨5⟩).1 =
       (match fresh_token_oracle (⟨5⟩ : TokenState).attempts with
        | .ok t => base_headers ++ [("Authorization", "token " ++ t)]
        | .fail _ => base_headers)) :=
  ⟨rfl, rfl, rfl, rfl,
   headers_app_exchange_every_call cfg_app_only fresh_token_oracle ⟨5⟩
     rfl rfl rfl rfl⟩

/-! ## C2: header merge on dispatch -/

/-- C2 (code defect): the one capability that supplies a caller-side
header override — `get_repository_topics`, which merges the resolver's
headers with the topics-preview `Accept` (override winning) and passes the
merged dict as the `headers=` keyword of `GitHubClient.request` — never
completes: for every configuration, oracle, state and repository, the
dispatcher raises `TypeError` during keyword binding (the source passes
`headers=self._get_headers()` and `**kwargs` with `kwargs` containing
`headers`), so the merged headers are never sent. -/
theorem topics_request_type_error (cfg : GitHubCfg)
    (oracle : Nat → ExchangeResult) (st : TokenState) (owner repo : String) :
    (get_repository_topics_request cfg oracle st owner repo).1 =
      .error (.exn "request() got multiple values for keyword argument \x27headers\x27") := by
  rfl

/-! ## C3: create_issue success envelope -/

/-- Counterexample to C3: at the exact claimed input — upstream answers
201 with body holding exactly `number`, `html_url`, `state`, `created_at`
— the invocation does not return a success envelope at all: the projection
also reads `issue["title"]`, so the call raises `KeyError` and the router
returns the error envelope. -/
theorem create_issue_four_field_body_cex :
    invoke_create_issue (fun _ => "")
        ⟨some "o", some "r", some "p", none, none, none, "b"⟩
        resp_created_four_fields [("title", .str "Bug")] =
      ([.text "Error executing tool \x27create_issue\x27: \x27title\x27"], 1) := by
  rfl

/-- C3 amended: when the upstream returns 201 with a body carrying
`number`, `title`, `html_url`, `state` and `created_at`, the handler
returns exactly those five fields plus the confirmation message — six
fields, no more and no fewer; a 201 body lacking `title` instead fails the
invocation (the projection reads `title` as well, beyond the claimed four
fields). -/
theorem create_issue_success_fields (owner repo : String)
    (params : List (String × JVal)) (resp : HttpResp)
    (fs : List (String × JVal)) (n t u s c : JVal)
    (htitle : py_truthy ((lookupKV params "title").getD .null) = true)
    (hstatus : resp.status = 201)
    (hbody : resp.body = some (.obj fs))
    (hn : lookupKV fs "number" = some n)
    (ht : lookupKV fs "title" = some t)
    (hu : lookupKV fs "html_url" = some u)
    (hs : lookupKV fs "state" = some s)
    (hc : lookupKV fs "created_at" = some c) :
    create_issue owner repo params resp = .ok (.obj
      [("number", n), ("title", t), ("html_url", u), ("state", s),
       ("created_at", c), ("message", .str "Issue created successfully")]) := by
  simp [create_issue, htitle, hstatus, hbody, resp_json, j_index,
        hn, ht, hu, hs, hc, Bind.bind, Except.bind]

/-- Witness for the amended C3 at a concrete 201 response whose body has
the five fields. -/
theorem create_issue_success_fields_witness :
    py_truthy ((lookupKV [("title", JVal.str "Bug")] "title").getD .null) = true ∧
    (⟨201, some (.obj [("number", .num 7), ("title", .str "Bug"),
        ("html_url", .str "u"), ("state", .str "open"),
        ("created_at", .str "t")])⟩ : HttpResp).status = 201 ∧
    create_issue "o" "r" [("title", JVal.str "Bug")]
        ⟨201, some (.obj [("number", .num 7), ("title", .str "Bug"),
            ("html_url", .str "u"), ("state", .str "open"),
            ("created_at", .str "t")])⟩ =
      .ok (.obj [("number", .num 7), ("title", .str "Bug"),
                 ("html_url", .str "u"), ("state", .str "open"),
                 ("created_at", .str "t"),
                 ("message", .str "Issue created successfully")]) :=
  ⟨rfl, rfl,
   create_issue_success_fields "o" "r" [("title", JVal.str "Bug")]
     ⟨201, some (.obj [("number", .num 7), ("title", .str "Bug"),
         ("html_url", .str "u"), ("state", .str "open"),
         ("created_at", .str "t")])⟩
     [("number", .num 7), ("title", .str "Bug"), ("html_url", .str "u"),
      ("state", .str "open"), ("created_at", .str "t")]
     (.num 7) (.str "Bug") (.str "u") (.str "open") (.str "t")
     rfl rfl rfl rfl rfl rfl rfl rfl⟩

/-! ## C9: pull requests excluded from list_issues -/

/-- C9: for every parsed upstream response array, the `list_issues` result
loop computes exactly the projection of the non-pull-request items: items
carrying a `pull_request` key are filtered out and every remaining item is
projected to the fixed issue field set (with the loop's failure behaviour —
the first unprojectable remaining item aborts — matching `mapM`). -/
theorem list_issues_filters_pull_requests (items : List JVal) :
    list_issues_project items =
      (items.filter (fun i => !jval_has_key i "pull_request")).mapM project_item := by
  induction items with
  | nil => rfl
  | cons i rest ih =>
    cases hkey : jval_has_key i "pull_request" with
    | true => simp [list_issues_project, hkey, List.filter_cons, ih]
    | false =>
      simp only [list_issues_project, hkey, List.filter_cons, Bool.not_false,
                 if_pos, List.mapM_cons, ih]
      cases project_item i with
      | error e => rfl
      | ok r =>
        cases (rest.filter (fun i => !jval_has_key i "pull_request")).mapM project_item with
        | error e => rfl
        | ok rs => rfl

/-! ## C10: truncation of long text -/

/-- The shared body expression truncates a string body longer than 200
characters. -/
theorem issue_body_field_long (fs : List (String × JVal)) (s : String)
    (hb : lookupKV fs "body" = some (.str s)) (hl : 200 < s.length) :
    issue_body_field fs = .ok (.str (py_slice s 200 ++ "...")) := by
  have hz : s.length ≠ 0 := by omega
  simp [issue_body_field, hb, py_truthy, py_len, hz, hl, Bind.bind, Except.bind]

/-- A successful issue projection places the computed body expression in
its `body` field. -/
theorem project_issue_ok_body (fs : List (String × JVal)) (r : JVal) (b : JVal)
    (hb : issue_body_field fs = .ok b)
    (hr : project_issue fs = .ok r) :
    j_index r "body" = .ok b := by
  simp only [project_issue, except_bind_ok_iff, hb, Except.ok.injEq] at hr
  obtain ⟨n, hn, t, ht, st, hst, u, hu, uv, huv, lg, hlg, lv, hlv, nm, hnm,
          ca, hca, ua, hua, cm, hcm, b2, hb2, hr⟩ := hr
  subst hb2
  subst hr
  rfl

/-- A successful pull-request projection places the computed body
expression in its `body` field. -/
theorem project_pr_ok_body (fs : List (String × JVal)) (r : JVal) (b : JVal)
    (hb : issue_body_field fs = .ok b)
    (hr : project_pr fs = .ok r) :
    j_index r "body" = .ok b := by
  simp only [project_pr, except_bind_ok_iff, hb, Except.ok.injEq] at hr
  obtain ⟨n, hn, t, ht, st, hst, u, hu, uv, huv, lg, hlg, ca, hca, ua, hua,
          hv, hhv, hrf, hhrf, bv, hbv, brf, hbrf, b2, hb2, hr⟩ := hr
  subst hb2
  subst hr
  rfl

/-- A successful file-branch projection places the truncated content in
its `content` field. -/
theorem file_result_ok_content (content : String) (fd : List (String × JVal))
    (r : JVal) (hr : get_file_content_file_result content fd = .ok r) :
    j_index r "content" = .ok (.str (file_content_field content)) := by
  simp only [get_file_content_file_result, except_bind_ok_iff,
             Except.ok.injEq] at hr
  obtain ⟨nm, hnm, p, hp, sz, hsz, sh, hsh, u, hu, hr⟩ := hr
  subst hr
  rfl

/-- C10: list and file-content results truncate long text: an issue or
pull-request body longer than 200 characters is returned as its first 200
characters followed by `"..."` by the `list_issues` and
`get_pull_requests` projections, and a decoded file content longer than
2000 characters is returned as its first 2000 characters followed by
`"..."` by the `get_file_content` file branch. -/
theorem truncation_of_long_bodies :
    (∀ (fs : List (String × JVal)) (s : String) (r : JVal),
       lookupKV fs "body" = some (.str s) → 200 < s.length →
       project_issue fs = .ok r →
       j_index r "body" = .ok (.str (py_slice s 200 ++ "..."))) ∧
    (∀ (fs : List (String × JVal)) (s : String) (r : JVal),
       lookupKV fs "body" = some (.str s) → 200 < s.length →
       project_pr fs = .ok r →
       j_index r "body" = .ok (.str (py_slice s 200 ++ "..."))) ∧
    (∀ (content : String) (fd : List (String × JVal)) (r : JVal),
       2000 < content.length →
       get_file_content_file_result content fd = .ok r →
       j_index r "content" = .ok (.str (py_slice content 2000 ++ "..."))) := by
  refine ⟨?_, ?_, ?_⟩
  · intro fs s r hb hl hr
    exact project_issue_ok_body fs r _ (issue_body_field_long fs s hb hl) hr
  · intro fs s r hb hl hr
    exact project_pr_ok_body fs r _ (issue_body_field_long fs s hb hl) hr
  · intro content fd r hl hr
    have hf : file_content_field content = py_slice content 2000 ++ "..." := by
      simp [file_content_field, hl]
    have := file_result_ok_content content fd r hr
    rw [hf] at this
    exact this

set_option maxRecDepth 4000 in
/-- Witness for C10 at a 201-character issue body, a 201-character PR
body, and a 2001-character decoded file content. -/
theorem truncation_of_long_bodies_witness :
    lookupKV sample_issue "body" = some (.str long_body_201) ∧
    200 < long_body_201.length ∧
    project_issue sample_issue = .ok sample_issue_result ∧
    j_index sample_issue_result "body" =
      .ok (.str (py_slice long_body_201 200 ++ "...")) ∧
    project_pr sample_pr = .ok sample_pr_result ∧
    j_index sample_pr_result "body" =
      .ok (.str (py_slice long_body_201 200 ++ "...")) ∧
    2000 < long_content_2001.length ∧
    get_file_content_file_result long_content_2001 sample_file_data =
      .ok sample_file_result ∧
    j_index sample_file_result "content" =
      .ok (.str (py_slice long_content_2001 2000 ++ "...")) := by
  have hclen : (2000 : Nat) < long_content_2001.length := by
    have h : long_content_2001.length = 2001 := by
      show (String.mk (List.replicate 2001 'b')).length = 2001
      rw [String.length_mk, List.length_replicate]
    omega
  have hblen : (200 : Nat) < long_body_201.length := by
    have h : long_body_201.length = 201 := by
      show (String.mk (List.replicate 201 'a')).length = 201
      rw [String.length_mk, List.length_replicate]
    omega
  have hfc : file_content_field long_content_2001 =
      py_slice long_content_2001 2000 ++ "..." := by
    simp only [file_content_field, if_pos hclen]
  have hfile : get_file_content_file_result long_content_2001 sample_file_data =
      .ok sample_file_result := by
    show Except.ok (JVal.obj
      [("type", .str "file"), ("name", .str "f"), ("path", .str "p"),
       ("size", .num 3), ("sha", .str "s"), ("html_url", .str "u"),
       ("download_url", .null),
       ("content", .str (file_content_field long_content_2001))]) =
      .ok sample_file_result
    rw [hfc]
    rfl
  have hbody : issue_body_field sample_issue =
      .ok (.str (py_slice long_body_201 200 ++ "...")) :=
    issue_body_field_long sample_issue long_body_201 rfl hblen
  have hpi : project_issue sample_issue = .ok sample_issue_result := by
    show (issue_body_field sample_issue >>= fun body => Except.ok (JVal.obj
      [("number", .num 1), ("title", .str "T"), ("state", .str "open"),
       ("html_url", .str "u"), ("user", .str "me"), ("labels", .arr []),
       ("created_at", .str "c"), ("updated_at", .str "d"),
       ("comments", .num 0), ("body", body)])) = .ok sample_issue_result
    rw [hbody]
    rfl
  have hbodyp : issue_body_field sample_pr =
      .ok (.str (py_slice long_body_201 200 ++ "...")) :=
    issue_body_field_long sample_pr long_body_201 rfl hblen
  have hpp : project_pr sample_pr = .ok sample_pr_result := by
    show (issue_body_field sample_pr >>= fun body => Except.ok (JVal.obj
      [("number", .num 2), ("title", .str "P"), ("state", .str "open"),
       ("html_url", .str "u"), ("user", .str "me"), ("created_at", .str "c"),
       ("updated_at", .str "d"), ("draft", .bool false),
       ("merged", .bool false), ("merged_at", .null), ("head", .str "h"),
       ("base", .str "m"), ("body", body)])) = .ok sample_pr_result
    rw [hbodyp]
    rfl
  exact ⟨rfl, hblen, hpi,
    truncation_of_long_bodies.1 sample_issue long_body_201 sample_issue_result
      rfl hblen hpi,
    hpp,
    truncation_of_long_bodies.2.1 sample_pr long_body_201 sample_pr_result
      rfl hblen hpp,
    hclen, hfile,
    truncation_of_long_bodies.2.2 long_content_2001 sample_file_data
      sample_file_result hclen hfile⟩

/-! ## C4: URL parser -/

/-- A list is a `isPrefixOf`-prefix of itself followed by anything. -/
theorem isPrefixOf_append_self (l t : List Char) :
    l.isPrefixOf (l ++ t) = true := by
  induction l with
  | nil => simp
  | cons a as ih => simp [List.isPrefixOf_cons₂, ih]

/-- Every element of a Boolean prefix is an element of the larger list. -/
theorem mem_of_isPrefixOf (pat s : List Char) (h : pat.isPrefixOf s = true) :
    ∀ x ∈ pat, x ∈ s := by
  induction pat generalizing s with
  | nil => intro x hx; cases hx
  | cons p ps ih =>
    cases s with
    | nil => cases h
    | cons c cs =>
      rw [List.isPrefixOf_cons₂] at h
      simp only [Bool.and_eq_true, beq_iff_eq] at h
      obtain ⟨h1, h2⟩ := h
      intro x hx
      rcases List.mem_cons.mp hx with hx | hx
      · exact List.mem_cons.mpr (Or.inl (hx.trans h1))
      · exact List.mem_cons.mpr (Or.inr (ih cs h2 x hx))

/-- `py_replace_aux` leaves a string untouched when some character of the
pattern does not occur in it. -/
theorem py_replace_aux_no_occur (pat rep s : List Char) (x : Char)
    (hx : x ∈ pat) (hs : x ∉ s) : py_replace_aux pat rep s 0 = s := by
  induction s with
  | nil => rfl
  | cons c cs ih =>
    have hpf : pat.isPrefixOf (c :: cs) = false := by
      cases h : pat.isPrefixOf (c :: cs) with
      | false => rfl
      | true => exact absurd (mem_of_isPrefixOf pat (c :: cs) h x hx) hs
    have hcs : x ∉ cs := fun hm => hs (List.mem_cons_of_mem c hm)
    simp [py_replace_aux, hpf, ih hcs]

/-- Skipping exactly the length of a consumed block lands after it. -/
theorem py_replace_aux_skip (pat rep : List Char) (xs rest : List Char) :
    py_replace_aux pat rep (xs ++ rest) xs.length =
      py_replace_aux pat rep rest 0 := by
  induction xs with
  | nil => rfl
  | cons x xs ih => simpa [py_replace_aux] using ih

/-- Stripping a pattern that occurs exactly as the final suffix (its head
character occurring nowhere earlier). -/
theorem py_replace_aux_strip (h : Char) (tl rep s : List Char)
    (hs : ∀ c ∈ s, c ≠ h) :
    py_replace_aux (h :: tl) rep (s ++ h :: tl) 0 = s ++ rep := by
  induction s with
  | nil =>
    have hp : (h :: tl).isPrefixOf ((h :: tl) ++ []) = true :=
      isPrefixOf_append_self (h :: tl) []
    rw [List.append_nil] at hp
    have hskip := py_replace_aux_skip (h :: tl) rep tl []
    rw [List.append_nil] at hskip
    simp [py_replace_aux, hp, hskip]
  | cons c cs ih =>
    have hc : c ≠ h := hs c (List.mem_cons_self c cs)
    have hpf : (h :: tl).isPrefixOf (c :: (cs ++ h :: tl)) = false := by
      rw [List.isPrefixOf_cons₂]
      simp [beq_eq_false_iff_ne.mpr (Ne.symm hc)]
    have hcs : ∀ x ∈ cs, x ≠ h := fun x hm => hs x (List.mem_cons_of_mem c hm)
    simp [py_replace_aux, hpf, ih hcs]

/-- Splitting a separator-free string yields a single segment. -/
theorem py_split_no_sep (sep : Char) (s : List Char)
    (hs : ∀ c ∈ s, c ≠ sep) : py_split sep s = [s] := by
  induction s with
  | nil => rfl
  | cons c cs ih =>
    have hc : c ≠ sep := hs c (List.mem_cons_self c cs)
    have hcs : ∀ x ∈ cs, x ≠ sep := fun x hm => hs x (List.mem_cons_of_mem c hm)
    simp [py_split, hc, ih hcs]

/-- Splitting at the first separator occurrence. -/
theorem py_split_sep_append (sep : Char) (a b : List Char)
    (ha : ∀ c ∈ a, c ≠ sep) :
    py_split sep (a ++ sep :: b) = a :: py_split sep b := by
  induction a with
  | nil => simp [py_split]
  | cons c cs ih =>
    have hc : c ≠ sep := ha c (List.mem_cons_self c cs)
    have hcs : ∀ x ∈ cs, x ≠ sep := fun x hm => ha x (List.mem_cons_of_mem c hm)
    simp only [List.cons_append, py_split, if_neg hc, List.append_eq, ih hcs]

/-- The char-class hypothesis on owner/repo segments used below: no
segment character is a path separator, a dot, a colon or an at-sign. -/
def plain_seg (s : List Char) : Prop :=
  ∀ c ∈ s, c ≠ '/' ∧ c ≠ '.' ∧ c ≠ ':' ∧ c ≠ '@'

/-- The shared replace-strip-split pipeline of all three branches, on the
remainder left after the URL-form prefix was stripped. -/
theorem strip_and_split (owner repo : List Char)
    (hoc : plain_seg owner) (hrc : plain_seg repo) :
    py_split '/' (py_replace dotgit_lit [] (owner ++ '/' :: (repo ++ dotgit_lit)))
      = [owner, repo] := by
  have hdot : ∀ c ∈ owner ++ '/' :: repo, c ≠ '.' := by
    intro c hm
    rcases List.mem_append.mp hm with hm | hm
    · exact (hoc c hm).2.1
    · rcases List.mem_cons.mp hm with hm | hm
      · rw [hm]; decide
      · exact (hrc c hm).2.1
  have hstrip : py_replace dotgit_lit [] (owner ++ '/' :: (repo ++ dotgit_lit))
      = owner ++ '/' :: repo := by
    have hassoc : owner ++ '/' :: (repo ++ dotgit_lit)
        = (owner ++ '/' :: repo) ++ ('.' :: ['g', 'i', 't']) := by
      simp [dotgit_lit]
    rw [py_replace, hassoc]
    exact (py_replace_aux_strip '.' ['g', 'i', 't'] []
      (owner ++ '/' :: repo) hdot).trans (List.append_nil _)
  rw [hstrip, py_split_sep_append '/' owner repo (fun c hm => (hoc c hm).1),
      py_split_no_sep '/' repo (fun c hm => (hrc c hm).1)]

/-- Absence of a given character from the post-prefix remainder. -/
theorem not_mem_rest (owner repo : List Char) (x : Char)
    (hxo : ∀ c ∈ owner, c ≠ x) (hxr : ∀ c ∈ repo, c ≠ x)
    (hslash : x ≠ '/') (hdg : x ∉ dotgit_lit) :
    x ∉ owner ++ '/' :: (repo ++ dotgit_lit) := by
  intro hm
  rcases List.mem_append.mp hm with hm | hm
  · exact hxo x hm rfl
  · rcases List.mem_cons.mp hm with hm | hm
    · exact hslash hm
    · rcases List.mem_append.mp hm with hm | hm
      · exact hxr x hm rfl
      · exact hdg hm

/-- Replacing a nonempty pattern standing at the head of the string. -/
theorem py_replace_head (pat rep rest : List Char) (hne : pat ≠ []) :
    py_replace_aux pat rep (pat ++ rest) 0 =
      rep ++ py_replace_aux pat rep rest 0 := by
  cases pat with
  | nil => exact absurd rfl hne
  | cons p ps =>
    have hp : (p :: ps).isPrefixOf ((p :: ps) ++ rest) = true :=
      isPrefixOf_append_self (p :: ps) rest
    rw [List.cons_append] at hp ⊢
    have hskip := py_replace_aux_skip (p :: ps) rep ps rest
    simp [py_replace_aux, hp, hskip]

/-- The first `replace` of each branch strips the (single) occurrence of
the URL-form prefix: a characterization for a pattern containing a
character absent from the remainder. -/
theorem py_replace_of_head_only (pat rest : List Char) (x : Char)
    (hne : pat ≠ []) (hx : x ∈ pat) (hrest : x ∉ rest) :
    py_replace pat [] (pat ++ rest) = rest := by
  have h1 : py_replace pat [] (pat ++ rest) = py_replace_aux pat [] rest 0 :=
    (py_replace_head pat [] rest hne).trans (List.nil_append _)
  rw [h1]
  exact py_replace_aux_no_occur pat [] rest x hx hrest

/-- The https form parses to (owner, repo). -/
theorem detect_https_form (owner repo : List Char)
    (hoc : plain_seg owner) (hrc : plain_seg repo) :
    detect_git_repo_parse (https_full ++ (owner ++ '/' :: (repo ++ dotgit_lit)))
      = some (owner, repo) := by
  have hmain : detect_git_repo_parse (https_full ++ (owner ++ '/' :: (repo ++ dotgit_lit))) =
      (match py_split '/' (py_replace dotgit_lit []
          (py_replace https_full [] (https_full ++ (owner ++ '/' :: (repo ++ dotgit_lit))))) with
       | p0 :: p1 :: _ => some (p0, p1)
       | _ => none) := rfl
  have hrest : py_replace https_full [] (https_full ++ (owner ++ '/' :: (repo ++ dotgit_lit)))
      = owner ++ '/' :: (repo ++ dotgit_lit) :=
    py_replace_of_head_only https_full _ ':' (by decide) (by decide)
      (not_mem_rest owner repo ':' (fun c hm => (hoc c hm).2.2.1)
        (fun c hm => (hrc c hm).2.2.1) (by decide) (by decide))
  rw [hmain, hrest, strip_and_split owner repo hoc hrc]

/-- The ssh form parses to (owner, repo). -/
theorem detect_ssh_form (owner repo : List Char)
    (hoc : plain_seg owner) (hrc : plain_seg repo) :
    detect_git_repo_parse (ssh_full ++ (owner ++ '/' :: (repo ++ dotgit_lit)))
      = some (owner, repo) := by
  have hmain : detect_git_repo_parse (ssh_full ++ (owner ++ '/' :: (repo ++ dotgit_lit))) =
      (match py_split '/' (py_replace dotgit_lit []
          (py_replace ssh_full [] (ssh_full ++ (owner ++ '/' :: (repo ++ dotgit_lit))))) with
       | p0 :: p1 :: _ => some (p0, p1)
       | _ => none) := rfl
  have hrest : py_replace ssh_full [] (ssh_full ++ (owner ++ '/' :: (repo ++ dotgit_lit)))
      = owner ++ '/' :: (repo ++ dotgit_lit) :=
    py_replace_of_head_only ssh_full _ '@' (by decide) (by decide)
      (not_mem_rest owner repo '@' (fun c hm => (hoc c hm).2.2.2)
        (fun c hm => (hrc c hm).2.2.2) (by decide) (by decide))
  rw [hmain, hrest, strip_and_split owner repo hoc hrc]

/-- The git-protocol form parses to (owner, repo). -/
theorem detect_gitp_form (owner repo : List Char)
    (hoc : plain_seg owner) (hrc : plain_seg repo) :
    detect_git_repo_parse (gitp_full ++ (owner ++ '/' :: (repo ++ dotgit_lit)))
      = some (owner, repo) := by
  have hmain : detect_git_repo_parse (gitp_full ++ (owner ++ '/' :: (repo ++ dotgit_lit))) =
      (match py_split '/' (py_replace dotgit_lit []
          (py_replace gitp_full [] (gitp_full ++ (owner ++ '/' :: (repo ++ dotgit_lit))))) with
       | p0 :: p1 :: _ => some (p0, p1)
       | _ => none) := rfl
  have hrest : py_replace gitp_full [] (gitp_full ++ (owner ++ '/' :: (repo ++ dotgit_lit)))
      = owner ++ '/' :: (repo ++ dotgit_lit) :=
    py_replace_of_head_only gitp_full _ ':' (by decide) (by decide)
      (not_mem_rest owner repo ':' (fun c hm => (hoc c hm).2.2.1)
        (fun c hm => (hrc c hm).2.2.1) (by decide) (by decide))
  rw [hmain, hrest, strip_and_split owner repo hoc hrc]

/-- Counterexample to C4: the parser does not require host `github.com`
and does not require exactly two non-empty path segments.  The URL
`https://gitlab.com/x/github.com` is none of the three claimed shapes (its
host is `gitlab.com`), yet the parser resolves it — to the nonsense pair
`("https:", "")` with an empty repo segment — because the host test is a
substring test, the prefix strip is a global replace that here removes
nothing, and `len(parts) >= 2` accepts any number of segments, empty ones
included. -/
theorem detect_substring_host_cex :
    detect_git_repo_parse ("https://gitlab.com/x/github.com".toList)
      = some ("https:".toList, "".toList) := by
  rfl

/-- C4 amended: the parser handles URLs containing the substring
`github.com` anywhere and beginning with `https://`, `git@` or `git://`
(other prefixes yield no resolution); it removes the corresponding literal
prefix by global replacement, removes every occurrence of `.git` (not only
a trailing suffix), splits on `/`, and succeeds whenever at least two
segments (possibly empty) result, returning the first two.  For every
logical repository whose owner and repo are non-empty and contain none of
`/`, `.`, `:`, `@`, all three origin-URL forms with trailing `.git` yield
the identical (owner, repo) pair. -/
theorem detect_three_forms_agree (owner repo : List Char)
    (_how : owner ≠ []) (_hrw : repo ≠ [])
    (hoc : plain_seg owner) (hrc : plain_seg repo) :
    detect_git_repo_parse (https_full ++ (owner ++ '/' :: (repo ++ dotgit_lit)))
        = some (owner, repo) ∧
    detect_git_repo_parse (ssh_full ++ (owner ++ '/' :: (repo ++ dotgit_lit)))
        = some (owner, repo) ∧
    detect_git_repo_parse (gitp_full ++ (owner ++ '/' :: (repo ++ dotgit_lit)))
        = some (owner, repo) :=
  ⟨detect_https_form owner repo hoc hrc,
   detect_ssh_form owner repo hoc hrc,
   detect_gitp_form owner repo hoc hrc⟩

/-- Witness for the amended C4 at owner `octo`, repo `fea` (so e.g. the
https URL is `https://github.com/octo/fea.git`). -/
theorem detect_three_forms_agree_witness :
    (['o', 'c', 't', 'o'] : List Char) ≠ [] ∧
    (['f', 'e', 'a'] : List Char) ≠ [] ∧
    plain_seg ['o', 'c', 't', 'o'] ∧ plain_seg ['f', 'e', 'a'] ∧
    (detect_git_repo_parse
        (https_full ++ (['o', 'c', 't', 'o'] ++ '/' :: (['f', 'e', 'a'] ++ dotgit_lit)))
        = some (['o', 'c', 't', 'o'], ['f', 'e', 'a']) ∧
     detect_git_repo_parse
        (ssh_full ++ (['o', 'c', 't', 'o'] ++ '/' :: (['f', 'e', 'a'] ++ dotgit_lit)))
        = some (['o', 'c', 't', 'o'], ['f', 'e', 'a']) ∧
     detect_git_repo_parse
        (gitp_full ++ (['o', 'c', 't', 'o'] ++ '/' :: (['f', 'e', 'a'] ++ dotgit_lit)))
        = some (['o', 'c', 't', 'o'], ['f', 'e', 'a'])) :=
  ⟨by decide, by decide, by unfold plain_seg; decide, by unfold plain_seg; decide,
   detect_three_forms_agree ['o', 'c', 't', 'o'] ['f', 'e', 'a']
     (by decide) (by decide) (by unfold plain_seg; decide)
     (by unfold plain_seg; decide)⟩

end FeatherCode
